import Mathlib

/-!
Verification of `data/from_map.py` (class `DataLoaderFromMap`) from the
repository `langevin-for-stochastic-control`.

The source file builds two TensorFlow datasets from a user-supplied sampler
`get_X0`: each is `tf.data.Dataset.from_tensor_slices((X, tf.zeros((N, 1))))`
followed by `.batch(batch_size)` and `.prefetch(tf.data.AUTOTUNE)`.

Embedding choices:
* Python integers are `Int`.
* a 2-d array (tensor) is a list of rows, a row a list of rationals (`Mat`);
* `tf.zeros((n, m))` is `zeros n m`, a matrix of `n.toNat` rows of `m.toNat`
  rational zeros;
* a `tf.data.Dataset` is modelled by the structure `Dataset`: its flat list
  of elements, the batch size applied by `.batch` (if any), and whether
  `.prefetch` was applied.  `from_tensor_slices` on a pair of tensors pairs
  the rows index-wise, raising (modelled by `Except.error`) when the first
  dimensions disagree, as TensorFlow does;
* the sampler `get_X0` defaults to Python `None`, hence the field has type
  `Option (Shape → Mat)`; invoking it while `None` raises a `TypeError`;
* `loadData` is embedded together with the trace of the shape arguments the
  sampler is invoked with, so that claims about the number and the order of
  the calls to `get_X0` are statable.  A raise aborts the method, so a shape
  enters the trace exactly when the corresponding call happens in Python.
-/

/-- A Python shape tuple `(rows, cols)` as passed to `get_X0(shape=...)`. -/
abbrev Shape : Type := Int × Int

/-- A 2-d tensor: a list of rows of rational entries. -/
abbrev Mat : Type := List (List ℚ)

/-- Embedding of `tf.zeros((n, m))`: `n` rows of `m` zeros. -/
def zeros (n m : Int) : Mat :=
  List.replicate n.toNat (List.replicate m.toNat 0)

/-- Embedding of `tf.data.AUTOTUNE` (the value is `-1` in TensorFlow). -/
def AUTOTUNE : Int := -1

/-- Model of a `tf.data.Dataset` over elements of type `ε`: the flat sequence
of elements, the batch size recorded by `.batch` (none before batching), and
whether `.prefetch` has been applied. -/
structure Dataset (ε : Type) where
  elems : List ε
  bsize : Option Int
  prefetched : Bool
deriving Repr, DecidableEq

/-- Embedding of `tf.data.Dataset.from_tensor_slices((X, Z))` for a pair of
tensors: the elements are the pairs of rows, index-wise.  TensorFlow raises a
`ValueError` when the first dimensions of `X` and `Z` differ. -/
def Dataset.from_tensor_slices (X Z : Mat) : Except String (Dataset (List ℚ × List ℚ)) :=
  if X.length = Z.length then
    Except.ok ⟨X.zip Z, none, false⟩
  else
    Except.error "ValueError: dimensions of inputs should match"

/-- Embedding of `Dataset.batch(b)`: records the batch size. -/
def Dataset.batch (d : Dataset ε) (b : Int) : Dataset ε :=
  { d with bsize := some b }

/-- Embedding of `Dataset.prefetch(buffer_size)`: marks the dataset
prefetched; the buffer size argument does not affect the contents. -/
def Dataset.prefetch (d : Dataset ε) (_ : Int) : Dataset ε :=
  { d with prefetched := true }

/-- Cutting a list into consecutive chunks of `b` elements, the last chunk
possibly shorter: the semantics of batching a dataset with batch size `b`. -/
def toBatches (b : Nat) (l : List α) : List (List α) :=
  if h : b = 0 then [] else
    match l with
    | [] => []
    | x :: xs => (x :: xs).take b :: toBatches b ((x :: xs).drop b)
termination_by l.length
decreasing_by
  rw [List.length_drop]
  have hb : 0 < b := Nat.pos_of_ne_zero h
  simp only [List.length_cons]
  omega

/-- The batches a `Dataset` yields when iterated: the elements cut into
chunks of the recorded batch size (each element on its own if unbatched). -/
def Dataset.batches (d : Dataset ε) : List (List ε) :=
  match d.bsize with
  | none => d.elems.map (fun e => [e])
  | some b => toBatches b.toNat d.elems

/-- Modelled from the spec: the base class `DatasetLoader` (file
`data/base.py`, absent from the sources) defines the
`(N_train, N_test, batch_size)` contract — its constructor stores the three
configuration values, and `loadData` is an abstract hook. -/
structure DatasetLoader where
  N_train : Int
  N_test : Int
  batch_size : Int
deriving Repr

/-- Modelled from the spec: the base-class constructor
`DatasetLoader.__init__(N_train, N_test, batch_size)` stores its three
arguments unchanged, in that order. -/
def DatasetLoader.init (N_train N_test batch_size : Int) : DatasetLoader :=
  ⟨N_train, N_test, batch_size⟩

/-- The class `DataLoaderFromMap`: the base-class state plus the sampler
`get_X0` (a Python callable or `None`) and the dimension `dim`. -/
structure DataLoaderFromMap extends DatasetLoader where
  get_X0 : Option (Shape → Mat)
  dim : Int

/-- The argument list of `DataLoaderFromMap.__init__` with the default
values of the Python signature. -/
structure InitArgs where
  N_train : Int := 100
  N_test : Int := 1000
  batch_size : Int := 512
  get_X0 : Option (Shape → Mat) := none
  dim : Int := 1

/-- Embedding of `DataLoaderFromMap.__init__`: forwards
`(N_train, N_test, batch_size)` to the base-class constructor and stores
`get_X0` and `dim`.  It performs no validation and cannot raise. -/
def DataLoaderFromMap.init (a : InitArgs) : DataLoaderFromMap :=
  { toDatasetLoader := DatasetLoader.init a.N_train a.N_test a.batch_size
    get_X0 := a.get_X0
    dim := a.dim }

/-- Error raised by Python when `self.get_X0` is `None` and is called. -/
def typeErrorNone : String := "TypeError: NoneType object is not callable"

/-- Embedding of `DataLoaderFromMap.loadData`, instrumented with the trace of
the shape arguments passed to `get_X0`.  The first component is the returned
pair `(ds, ds_test)` (or the raised error); the second is the list of shapes
`get_X0` was invoked with, in call order.  Mirrors the source statement by
statement: build `ds` from `get_X0(shape=(N_train, dim))` paired with
`tf.zeros((N_train, 1))`, batch and prefetch it; then build `ds_test` the
same way from `get_X0(shape=(N_test, dim))` and `tf.zeros((N_test, 1))`;
return `(ds, ds_test)`. -/
def DataLoaderFromMap.loadData (d : DataLoaderFromMap) :
    Except String (Dataset (List ℚ × List ℚ) × Dataset (List ℚ × List ℚ)) × List Shape :=
  match d.get_X0 with
  | none => (Except.error typeErrorNone, [])
  | some f =>
    let s₁ : Shape := (d.N_train, d.dim)
    let X₁ : Mat := f s₁
    match Dataset.from_tensor_slices X₁ (zeros d.N_train 1) with
    | Except.error e => (Except.error e, [s₁])
    | Except.ok ds₀ =>
      let ds := (ds₀.batch d.batch_size).prefetch AUTOTUNE
      let s₂ : Shape := (d.N_test, d.dim)
      let X₂ : Mat := f s₂
      match Dataset.from_tensor_slices X₂ (zeros d.N_test 1) with
      | Except.error e => (Except.error e, [s₁, s₂])
      | Except.ok dt₀ =>
        let ds_test := (dt₀.batch d.batch_size).prefetch AUTOTUNE
        (Except.ok (ds, ds_test), [s₁, s₂])

/-- The method `loadData` viewed as a state transformer on the object: the
body contains no assignment to any field of `self`, so the post-state is the
receiver unchanged, alongside the returned value. -/
def DataLoaderFromMap.loadDataS (d : DataLoaderFromMap) :
    DataLoaderFromMap ×
      (Except String (Dataset (List ℚ × List ℚ) × Dataset (List ℚ × List ℚ)) × List Shape) :=
  (d, d.loadData)

/-! Helper lemmas (shared between the claim theorems below). -/

theorem toBatches_nil (b : Nat) : toBatches b ([] : List α) = [] := by
  rw [toBatches]
  split
  · rfl
  · rfl

theorem toBatches_cons (b : Nat) (hb : 0 < b) (x : α) (xs : List α) :
    toBatches b (x :: xs) = (x :: xs).take b :: toBatches b ((x :: xs).drop b) := by
  rw [toBatches]
  rw [dif_neg (Nat.pos_iff_ne_zero.mp hb)]

theorem toBatches_length (b : Nat) (hb : 0 < b) :
    ∀ (n : Nat) (l : List α), l.length ≤ n →
      (toBatches b l).length = (l.length + b - 1) / b := by
  intro n
  induction n with
  | zero =>
    intro l hl
    have hnil : l = [] := List.length_eq_zero.mp (Nat.le_zero.mp hl)
    subst hnil
    simp only [toBatches_nil, List.length_nil, Nat.zero_add]
    exact (Nat.div_eq_of_lt (Nat.sub_lt hb Nat.one_pos)).symm
  | succ n ih =>
    intro l hl
    match l with
    | [] =>
      simp only [toBatches_nil, List.length_nil, Nat.zero_add]
      exact (Nat.div_eq_of_lt (Nat.sub_lt hb Nat.one_pos)).symm
    | x :: xs =>
      rw [toBatches_cons b hb]
      have hdrop : ((x :: xs).drop b).length ≤ n := by
        rw [List.length_drop]
        simp only [List.length_cons] at hl ⊢
        omega
      rw [List.length_cons, ih _ hdrop, List.length_drop]
      have hlen : 0 < (x :: xs).length := by simp
      rcases Nat.le_total b (x :: xs).length with hcase | hcase
      · have h₁ : (x :: xs).length - b + b - 1 = (x :: xs).length - 1 := by omega
        have h₂ : (x :: xs).length + b - 1 = ((x :: xs).length - 1) + b := by omega
        rw [h₁, h₂, Nat.add_div_right _ hb]
      · have h₁ : (x :: xs).length - b = 0 := by omega
        have h₂ : (b - 1) / b = 0 := Nat.div_eq_of_lt (Nat.sub_lt hb Nat.one_pos)
        have h₃ : ((x :: xs).length + b - 1) / b = 1 := by
          apply Nat.div_eq_of_lt_le
          · omega
          · omega
        rw [h₁, Nat.zero_add, h₂, h₃]

theorem toBatches_sizes (b : Nat) :
    ∀ (n : Nat) (l : List α), l.length ≤ n →
      ∀ c ∈ toBatches b l, c.length ≤ b := by
  intro n
  induction n with
  | zero =>
    intro l hl
    have hnil : l = [] := List.length_eq_zero.mp (Nat.le_zero.mp hl)
    subst hnil
    simp [toBatches_nil]
  | succ n ih =>
    intro l hl c hc
    match l with
    | [] => simp [toBatches_nil] at hc
    | x :: xs =>
      by_cases hb : 0 < b
      · rw [toBatches_cons b hb] at hc
        rcases List.mem_cons.mp hc with h | h
        · subst h
          rw [List.length_take]
          exact Nat.min_le_left _ _
        · have hdrop : ((x :: xs).drop b).length ≤ n := by
            rw [List.length_drop]
            simp only [List.length_cons] at hl ⊢
            omega
          exact ih _ hdrop c h
      · have hb0 : b = 0 := Nat.eq_zero_of_not_pos hb
        subst hb0
        rw [toBatches] at hc
        simp at hc

theorem zeros_length (n m : Int) : (zeros n m).length = n.toNat := by
  simp [zeros]

theorem loadData_run (d : DataLoaderFromMap) (f : Shape → Mat)
    (hg : d.get_X0 = some f)
    (h₁ : (f (d.N_train, d.dim)).length = d.N_train.toNat)
    (h₂ : (f (d.N_test, d.dim)).length = d.N_test.toNat) :
    d.loadData =
      (Except.ok
        (⟨(f (d.N_train, d.dim)).zip (zeros d.N_train 1), some d.batch_size, true⟩,
         ⟨(f (d.N_test, d.dim)).zip (zeros d.N_test 1), some d.batch_size, true⟩),
       [(d.N_train, d.dim), (d.N_test, d.dim)]) := by
  unfold DataLoaderFromMap.loadData
  rw [hg]
  have hc₁ : (f (d.N_train, d.dim)).length = (zeros d.N_train 1).length := by
    rw [h₁, zeros_length]
  have hc₂ : (f (d.N_test, d.dim)).length = (zeros d.N_test 1).length := by
    rw [h₂, zeros_length]
  simp only [Dataset.from_tensor_slices, if_pos hc₁, if_pos hc₂,
    Dataset.batch, Dataset.prefetch]

/-- A concrete sampler for witnesses: a constant matrix of the requested
shape. -/
def sampleEx : Shape → Mat :=
  fun s => List.replicate s.1.toNat (List.replicate s.2.toNat (1 : ℚ))

/-- A concrete loader for witnesses. -/
def dEx : DataLoaderFromMap :=
  DataLoaderFromMap.init
    { N_train := 3, N_test := 2, batch_size := 2, get_X0 := some sampleEx, dim := 2 }

/-- Claim C1: for every `DataLoaderFromMap` whose stored sampler is a
function returning a tensor with the requested number of rows, `loadData`
returns the pair of pipelines in the order `(train, test)`: the first built
from `get_X0(shape=(N_train, dim))` paired with zeros, the second from
`get_X0(shape=(N_test, dim))` paired with zeros, each batched with
`batch_size` and prefetched. -/
theorem C1_loadData_train_then_test (d : DataLoaderFromMap) (f : Shape → Mat)
    (hg : d.get_X0 = some f)
    (h₁ : (f (d.N_train, d.dim)).length = d.N_train.toNat)
    (h₂ : (f (d.N_test, d.dim)).length = d.N_test.toNat) :
    (d.loadData).1 =
      Except.ok
        (⟨(f (d.N_train, d.dim)).zip (zeros d.N_train 1), some d.batch_size, true⟩,
         ⟨(f (d.N_test, d.dim)).zip (zeros d.N_test 1), some d.batch_size, true⟩) := by
  rw [loadData_run d f hg h₁ h₂]

/-- Witness for C1 at the concrete loader `dEx`. -/
theorem C1_witness :
    (dEx.loadData).1 =
      Except.ok
        (⟨(sampleEx (dEx.N_train, dEx.dim)).zip (zeros dEx.N_train 1),
            some dEx.batch_size, true⟩,
         ⟨(sampleEx (dEx.N_test, dEx.dim)).zip (zeros dEx.N_test 1),
            some dEx.batch_size, true⟩) :=
  C1_loadData_train_then_test dEx sampleEx rfl rfl rfl

/-- Claim C2 counterexample: with `N_train = N_test = 5`, one call to
`loadData` invokes `get_X0` twice, but the two shape arguments are both
`(5, 1)` — the same shape — refuting that the two shapes are different for
every choice of `N_train` and `N_test` including `N_train = N_test`. -/
theorem C2_counterexample :
    ((DataLoaderFromMap.init
        { N_train := 5, N_test := 5, get_X0 := some sampleEx }).loadData).2 =
        [((5 : Int), (1 : Int)), ((5 : Int), (1 : Int))] := by
  rfl

/-- Claim C2 (amended): when the stored sampler is a function whose first
requested tensor has the requested number of rows, a single call to
`loadData` invokes `get_X0` exactly twice, with the shape arguments
`(N_train, dim)` then `(N_test, dim)`; the two shapes are different if and
only if `N_train ≠ N_test`. -/
theorem C2_loadData_two_calls (d : DataLoaderFromMap) (f : Shape → Mat)
    (hg : d.get_X0 = some f)
    (h₁ : (f (d.N_train, d.dim)).length = d.N_train.toNat) :
    (d.loadData).2 = [(d.N_train, d.dim), (d.N_test, d.dim)] ∧
      (((d.N_train, d.dim) : Shape) ≠ (d.N_test, d.dim) ↔ d.N_train ≠ d.N_test) := by
  constructor
  · unfold DataLoaderFromMap.loadData
    rw [hg]
    have hc₁ : (f (d.N_train, d.dim)).length = (zeros d.N_train 1).length := by
      rw [h₁, zeros_length]
    simp only [Dataset.from_tensor_slices, if_pos hc₁]
    by_cases hc₂ : (f (d.N_test, d.dim)).length = (zeros d.N_test 1).length
    · simp only [if_pos hc₂]
    · simp only [if_neg hc₂]
  · simp [Prod.ext_iff]

/-- Witness for (amended) C2 at the concrete loader `dEx`. -/
theorem C2_witness :
    (dEx.loadData).2 = [(dEx.N_train, dEx.dim), (dEx.N_test, dEx.dim)] ∧
      (((dEx.N_train, dEx.dim) : Shape) ≠ (dEx.N_test, dEx.dim) ↔
        dEx.N_train ≠ dEx.N_test) :=
  C2_loadData_two_calls dEx sampleEx rfl rfl

/-- Claim C3: the constructor forwards `N_train`, `N_test`, `batch_size` to
the base-class constructor in that order, and stores the fields `get_X0` and
`dim` unchanged. -/
theorem C3_init_forwards (N_train N_test batch_size : Int)
    (g : Option (Shape → Mat)) (dim : Int) :
    (DataLoaderFromMap.init ⟨N_train, N_test, batch_size, g, dim⟩).toDatasetLoader =
        DatasetLoader.init N_train N_test batch_size ∧
      (DataLoaderFromMap.init ⟨N_train, N_test, batch_size, g, dim⟩).get_X0 = g ∧
      (DataLoaderFromMap.init ⟨N_train, N_test, batch_size, g, dim⟩).dim = dim :=
  ⟨rfl, rfl, rfl⟩

/-- Claim C4: the constructor performs no validation and cannot raise: for
every argument values — `get_X0 = none` and zero or negative integers
included — construction yields the object whose fields are exactly the
values given, unmodified. -/
theorem C4_init_no_validation (N_train N_test batch_size : Int)
    (g : Option (Shape → Mat)) (dim : Int) :
    DataLoaderFromMap.init ⟨N_train, N_test, batch_size, g, dim⟩ =
      ⟨⟨N_train, N_test, batch_size⟩, g, dim⟩ :=
  rfl

/-- Claim C5: in both pipelines returned by `loadData`, the component paired
with the sampled tensor is an all-zeros tensor of shape `(N, 1)` — `N_train`
rows for the train pipeline and `N_test` rows for the test pipeline — with
one column regardless of the value of `dim`. -/
theorem C5_zeros_shape (d : DataLoaderFromMap) (f : Shape → Mat)
    (hg : d.get_X0 = some f)
    (h₁ : (f (d.N_train, d.dim)).length = d.N_train.toNat)
    (h₂ : (f (d.N_test, d.dim)).length = d.N_test.toNat) :
    ∃ ds ds_test, (d.loadData).1 = Except.ok (ds, ds_test) ∧
      ds.elems.map Prod.snd =
        List.replicate d.N_train.toNat (List.replicate 1 (0 : ℚ)) ∧
      ds_test.elems.map Prod.snd =
        List.replicate d.N_test.toNat (List.replicate 1 (0 : ℚ)) := by
  refine ⟨⟨(f (d.N_train, d.dim)).zip (zeros d.N_train 1), some d.batch_size, true⟩,
          ⟨(f (d.N_test, d.dim)).zip (zeros d.N_test 1), some d.batch_size, true⟩,
          ?_, ?_, ?_⟩
  · rw [loadData_run d f hg h₁ h₂]
  · show ((f (d.N_train, d.dim)).zip (zeros d.N_train 1)).map Prod.snd = _
    rw [List.map_snd_zip _ _ (le_of_eq (by rw [zeros_length, h₁]))]
    rfl
  · show ((f (d.N_test, d.dim)).zip (zeros d.N_test 1)).map Prod.snd = _
    rw [List.map_snd_zip _ _ (le_of_eq (by rw [zeros_length, h₂]))]
    rfl

/-- Witness for C5 at the concrete loader `dEx`. -/
theorem C5_witness :
    ∃ ds ds_test, (dEx.loadData).1 = Except.ok (ds, ds_test) ∧
      ds.elems.map Prod.snd =
        List.replicate dEx.N_train.toNat (List.replicate 1 (0 : ℚ)) ∧
      ds_test.elems.map Prod.snd =
        List.replicate dEx.N_test.toNat (List.replicate 1 (0 : ℚ)) :=
  C5_zeros_shape dEx sampleEx rfl rfl rfl

/-- Claim C6: both pipelines are batched with the same stored `batch_size`
and prefetched, and for `batch_size > 0` the train pipeline yields
`ceil(N_train / batch_size)` batches and the test pipeline
`ceil(N_test / batch_size)` batches (written with the natural-number
identity `ceil(a / b) = (a + b - 1) / b`), every batch of size at most
`batch_size`. -/
theorem C6_batch_counts (d : DataLoaderFromMap) (f : Shape → Mat)
    (hg : d.get_X0 = some f)
    (h₁ : (f (d.N_train, d.dim)).length = d.N_train.toNat)
    (h₂ : (f (d.N_test, d.dim)).length = d.N_test.toNat)
    (hb : 0 < d.batch_size) :
    ∃ ds ds_test, (d.loadData).1 = Except.ok (ds, ds_test) ∧
      ds.bsize = some d.batch_size ∧ ds_test.bsize = some d.batch_size ∧
      ds.prefetched = true ∧ ds_test.prefetched = true ∧
      ds.batches.length =
        (d.N_train.toNat + d.batch_size.toNat - 1) / d.batch_size.toNat ∧
      ds_test.batches.length =
        (d.N_test.toNat + d.batch_size.toNat - 1) / d.batch_size.toNat ∧
      (∀ c ∈ ds.batches, c.length ≤ d.batch_size.toNat) ∧
      (∀ c ∈ ds_test.batches, c.length ≤ d.batch_size.toNat) := by
  have hb' : 0 < d.batch_size.toNat := by omega
  have hlen₁ : ((f (d.N_train, d.dim)).zip (zeros d.N_train 1)).length =
      d.N_train.toNat := by
    rw [List.length_zip, zeros_length, h₁, Nat.min_self]
  have hlen₂ : ((f (d.N_test, d.dim)).zip (zeros d.N_test 1)).length =
      d.N_test.toNat := by
    rw [List.length_zip, zeros_length, h₂, Nat.min_self]
  refine ⟨⟨(f (d.N_train, d.dim)).zip (zeros d.N_train 1), some d.batch_size, true⟩,
          ⟨(f (d.N_test, d.dim)).zip (zeros d.N_test 1), some d.batch_size, true⟩,
          ?_, rfl, rfl, rfl, rfl, ?_, ?_, ?_, ?_⟩
  · rw [loadData_run d f hg h₁ h₂]
  · show (toBatches d.batch_size.toNat _).length = _
    rw [toBatches_length _ hb' _ _ (le_of_eq rfl), hlen₁]
  · show (toBatches d.batch_size.toNat _).length = _
    rw [toBatches_length _ hb' _ _ (le_of_eq rfl), hlen₂]
  · exact toBatches_sizes _ _ _ (le_of_eq rfl)
  · exact toBatches_sizes _ _ _ (le_of_eq rfl)

/-- Witness for C6 at the concrete loader `dEx` (batch size 2, so the train
pipeline has `ceil(3/2) = 2` batches and the test pipeline `ceil(2/2) = 1`). -/
theorem C6_witness :
    ∃ ds ds_test, (dEx.loadData).1 = Except.ok (ds, ds_test) ∧
      ds.bsize = some dEx.batch_size ∧ ds_test.bsize = some dEx.batch_size ∧
      ds.prefetched = true ∧ ds_test.prefetched = true ∧
      ds.batches.length =
        (dEx.N_train.toNat + dEx.batch_size.toNat - 1) / dEx.batch_size.toNat ∧
      ds_test.batches.length =
        (dEx.N_test.toNat + dEx.batch_size.toNat - 1) / dEx.batch_size.toNat ∧
      (∀ c ∈ ds.batches, c.length ≤ dEx.batch_size.toNat) ∧
      (∀ c ∈ ds_test.batches, c.length ≤ dEx.batch_size.toNat) :=
  C6_batch_counts dEx sampleEx rfl rfl rfl (by decide)

/-- Claim C7: `loadData` passes the data through unmodified: the elements of
each returned pipeline are exactly the rows of the tensor returned by
`get_X0` paired with the rows of the constructed zeros tensor — no
transformation, filtering or validation of the sampled values. -/
theorem C7_passthrough (d : DataLoaderFromMap) (f : Shape → Mat)
    (hg : d.get_X0 = some f)
    (h₁ : (f (d.N_train, d.dim)).length = d.N_train.toNat)
    (h₂ : (f (d.N_test, d.dim)).length = d.N_test.toNat) :
    ∃ ds ds_test, (d.loadData).1 = Except.ok (ds, ds_test) ∧
      ds.elems.map Prod.fst = f (d.N_train, d.dim) ∧
      ds.elems.map Prod.snd = zeros d.N_train 1 ∧
      ds_test.elems.map Prod.fst = f (d.N_test, d.dim) ∧
      ds_test.elems.map Prod.snd = zeros d.N_test 1 := by
  refine ⟨⟨(f (d.N_train, d.dim)).zip (zeros d.N_train 1), some d.batch_size, true⟩,
          ⟨(f (d.N_test, d.dim)).zip (zeros d.N_test 1), some d.batch_size, true⟩,
          ?_, ?_, ?_, ?_, ?_⟩
  · rw [loadData_run d f hg h₁ h₂]
  · exact List.map_fst_zip _ _ (le_of_eq (by rw [zeros_length, h₁]))
  · exact List.map_snd_zip _ _ (le_of_eq (by rw [zeros_length, h₁]))
  · exact List.map_fst_zip _ _ (le_of_eq (by rw [zeros_length, h₂]))
  · exact List.map_snd_zip _ _ (le_of_eq (by rw [zeros_length, h₂]))

/-- Witness for C7 at the concrete loader `dEx`. -/
theorem C7_witness :
    ∃ ds ds_test, (dEx.loadData).1 = Except.ok (ds, ds_test) ∧
      ds.elems.map Prod.fst = sampleEx (dEx.N_train, dEx.dim) ∧
      ds.elems.map Prod.snd = zeros dEx.N_train 1 ∧
      ds_test.elems.map Prod.fst = sampleEx (dEx.N_test, dEx.dim) ∧
      ds_test.elems.map Prod.snd = zeros dEx.N_test 1 :=
  C7_passthrough dEx sampleEx rfl rfl rfl

/-- Claim C8: `loadData` never modifies the loader: viewed as a state
transformer its post-state keeps every field equal to the pre-state, so a
repeated call produces the same shape-argument trace (nothing is cached). -/
theorem C8_loadData_frame (d : DataLoaderFromMap) :
    (d.loadDataS).1.N_train = d.N_train ∧
      (d.loadDataS).1.N_test = d.N_test ∧
      (d.loadDataS).1.batch_size = d.batch_size ∧
      (d.loadDataS).1.get_X0 = d.get_X0 ∧
      (d.loadDataS).1.dim = d.dim ∧
      ((d.loadDataS).1.loadDataS).2.2 = (d.loadDataS).2.2 :=
  ⟨rfl, rfl, rfl, rfl, rfl, rfl⟩

/-- Claim C9: with `get_X0` left at its default `None` construction still
succeeds (the field is simply `none`), but `loadData` then raises a
`TypeError` at the first attempt to invoke the missing callback; a
successful `loadData` is only possible when `get_X0` actually holds a
callable. -/
theorem C9_none_sampler (nt nte bs dm : Int) (d : DataLoaderFromMap) :
    (DataLoaderFromMap.init ⟨nt, nte, bs, none, dm⟩).get_X0 = none ∧
      ((DataLoaderFromMap.init ⟨nt, nte, bs, none, dm⟩).loadData).1 =
        Except.error typeErrorNone ∧
      (∀ r, (d.loadData).1 = Except.ok r → d.get_X0.isSome = true) := by
  refine ⟨rfl, rfl, ?_⟩
  intro r hr
  match hgx : d.get_X0 with
  | some f => rfl
  | none =>
    unfold DataLoaderFromMap.loadData at hr
    rw [hgx] at hr
    exact absurd hr (by simp)

/-- Witness for C9: a loader built with `get_X0 = none` raises, and the
concrete loader `dEx`, whose `loadData` succeeds, has a sampler. -/
theorem C9_witness :
    ((DataLoaderFromMap.init ⟨1, 2, 3, none, 4⟩).loadData).1 =
        Except.error typeErrorNone ∧
      dEx.get_X0.isSome = true :=
  ⟨(C9_none_sampler 1 2 3 4 dEx).2.1,
   (C9_none_sampler 1 2 3 4 dEx).2.2 _
     (congrArg Prod.fst (loadData_run dEx sampleEx rfl rfl rfl))⟩

/-- Claim C10: a `DataLoaderFromMap` constructed with no arguments has the
default configuration `N_train = 100`, `N_test = 1000`, `batch_size = 512`,
`dim = 1` and `get_X0 = none`. -/
theorem C10_defaults :
    (DataLoaderFromMap.init {}).N_train = 100 ∧
      (DataLoaderFromMap.init {}).N_test = 1000 ∧
      (DataLoaderFromMap.init {}).batch_size = 512 ∧
      (DataLoaderFromMap.init {}).get_X0 = none ∧
      (DataLoaderFromMap.init {}).dim = 1 :=
  ⟨rfl, rfl, rfl, rfl, rfl⟩
